import Mathlib

/-!
Verification of the ironbar compositor abstraction layer
(workspace model, Hyprland adapter, Sway adapter) against its
natural-language specification.

The definitions below are a shallow embedding of the Rust sources
src/clients/compositor/hyprland.rs, src/clients/compositor/sway.rs and
src/modules/workspaces.rs.  External compositor state (the result of the
Workspaces::get, Monitors::get and HWorkspace::get_active queries) is
passed in explicitly; Rust panics (expect / todo!) in fallible
translation paths are modelled as Except.error.
-/

namespace Ironbar

/-- Newtype over the canonical string form of a compositor workspace
identifier, mirroring the Rust struct WorkspaceId(String). -/
structure WorkspaceId where
  s : String
deriving DecidableEq, Repr

/-- Visibility state of a workspace, mirroring the Rust enum Visibility
with variants Focused, Visible(bool) and Hidden. -/
inductive Visibility where
  | Focused : Visibility
  | Visible : Bool → Visibility
  | Hidden : Visibility
deriving DecidableEq, Repr

/-- Modelled from the spec: the constructor Visibility::focused() of the
shared model module (not under src/) returns the Focused variant. -/
def Visibility.focused : Visibility := Visibility.Focused

/-- Modelled from the spec: the constructor Visibility::visible() of the
shared model module (not under src/) returns Visible(true). -/
def Visibility.visible : Visibility := Visibility.Visible true

/-- Modelled from the spec: the predicate is_focused() is true exactly for
the Focused variant. -/
def Visibility.is_focused : Visibility → Bool
  | Visibility.Focused => true
  | _ => false

/-- Modelled from the spec: the predicate is_visible() is true for Focused
and for Visible(true). -/
def Visibility.is_visible : Visibility → Bool
  | Visibility.Focused => true
  | Visibility.Visible b => b
  | Visibility.Hidden => false

/-- The shared workspace model: id, display name, monitor and visibility,
mirroring the Rust struct Workspace. -/
structure Workspace where
  id : WorkspaceId
  name : String
  monitor : String
  visibility : Visibility
deriving DecidableEq, Repr

/-- The wire event emitted to subscribers, mirroring the Rust enum
WorkspaceUpdate. -/
inductive WorkspaceUpdate where
  | Init : List Workspace → WorkspaceUpdate
  | Add : Workspace → WorkspaceUpdate
  | Update : Workspace → WorkspaceUpdate
  | Move : Workspace → WorkspaceUpdate
  | Focus : Option Workspace → Workspace → WorkspaceUpdate
  | Remove : String → WorkspaceUpdate
deriving DecidableEq, Repr

namespace Hyprland

/-- A native Hyprland workspace record as returned by Workspaces::get,
with the fields the adapter reads (numeric id, name, monitor). -/
structure HWorkspace where
  id : Int
  name : String
  monitor : String
deriving DecidableEq, Repr

/-- A native Hyprland monitor record, with the active workspace id field
read by create_is_visible. -/
structure HMonitor where
  active_workspace_id : Int
deriving DecidableEq, Repr

/-- One snapshot of the compositor state observable through the query
socket: the full workspace list (Workspaces::get), the monitor list
(Monitors::get) and the active workspace (HWorkspace::get_active, None
modelling a failed query). -/
structure HyprServer where
  workspaces : List HWorkspace
  monitors : List HMonitor
  active : Option HWorkspace
deriving Repr

/-- Native event payload naming a workspace, mirroring the Rust enum
WorkspaceType with Regular and Special variants. -/
inductive WorkspaceType where
  | Regular : String → WorkspaceType
  | Special : Option String → WorkspaceType
deriving DecidableEq, Repr

/-- Mirrors fn get_workspace_id: Regular names map directly, Special uses
the name or the empty string. -/
def get_workspace_id : WorkspaceType → WorkspaceId
  | WorkspaceType.Regular name => WorkspaceId.mk name
  | WorkspaceType.Special name => WorkspaceId.mk (name.getD "")

/-- Mirrors fn create_is_visible: a workspace is visible when some monitor
has it in its active slot. -/
def create_is_visible (server : HyprServer) : HWorkspace → Bool :=
  fun w => server.monitors.any (fun m => decide (m.active_workspace_id = w.id))

/-- Mirrors impl From (&HWorkspace, Option &str, F) for Visibility:
Focused when the name matches the active name, else Visible(true) when
the is_visible predicate holds, else Hidden. -/
def visibility_from (workspace : HWorkspace) (active_name : Option String)
    (is_vis : HWorkspace → Bool) : Visibility :=
  if some workspace.name = active_name then Visibility.focused
  else if is_vis workspace then Visibility.visible
  else Visibility.Hidden

/-- Mirrors impl From (Visibility, HWorkspace) for Workspace. -/
def workspace_from (visibility : Visibility) (workspace : HWorkspace) : Workspace :=
  { id := WorkspaceId.mk (toString workspace.id)
    name := workspace.name
    monitor := workspace.monitor
    visibility := visibility }

/-- Mirrors EventClient::get_workspace: scan the fresh full workspace list
for the entry whose stringified id matches, deriving its visibility
against the cached active workspace name. -/
def get_workspace (server : HyprServer) (id : WorkspaceId)
    (active : Option Workspace) : Option Workspace :=
  server.workspaces.findSome? (fun w =>
    if WorkspaceId.mk (toString w.id) = id then
      some (workspace_from
        (visibility_from w (active.map (fun a => a.name)) (create_is_visible server)) w)
    else none)

/-- Mirrors EventClient::send_focus_change: emit Focus only when a
previous active workspace is cached, and always install the new
workspace into the cache.  Returns (emitted events, new cache). -/
def send_focus_change (prev_workspace : Option Workspace) (workspace : Workspace) :
    List WorkspaceUpdate × Option Workspace :=
  match prev_workspace with
  | some old => ([WorkspaceUpdate.Focus (some old) workspace], some workspace)
  | none => ([], some workspace)

/-- Mirrors the add_workspace_added_handler closure: resolve the named
workspace and emit Add when found; the cache is not written. -/
def workspace_added_handler (server : HyprServer) (t : WorkspaceType)
    (active : Option Workspace) : List WorkspaceUpdate × Option Workspace :=
  match get_workspace server (get_workspace_id t) active with
  | some workspace => ([WorkspaceUpdate.Add workspace], active)
  | none => ([], active)

/-- Mirrors the add_workspace_change_handler closure: resolve the named
workspace; when found emit Update unconditionally and, when the resolved
visibility is not Focused, the send_focus_change events; an unresolved
name is logged and dropped. -/
def workspace_change_handler (server : HyprServer) (t : WorkspaceType)
    (active : Option Workspace) : List WorkspaceUpdate × Option Workspace :=
  match get_workspace server (get_workspace_id t) active with
  | none => ([], active)
  | some workspace =>
    if workspace.visibility.is_focused then
      ([WorkspaceUpdate.Update workspace], active)
    else
      let r := send_focus_change active workspace
      (WorkspaceUpdate.Update workspace :: r.1, r.2)

/-- Mirrors the workspace_batch_event macro body (window open, window
close and window moved handlers): re-query the full list and emit one
Update per workspace whose visibility is Visible(b), b true exactly when
the cached active workspace id equals the stringified native id; the
cache is read per iteration and never written. -/
def workspace_batch_handler (server : HyprServer) (active : Option Workspace) :
    List WorkspaceUpdate × Option Workspace :=
  (server.workspaces.map (fun ws =>
    let focused :=
      match active with
      | none => Visibility.Visible false
      | some w => Visibility.Visible (decide (w.id = WorkspaceId.mk (toString ws.id)))
    WorkspaceUpdate.Update (workspace_from focused ws)), active)

/-- Mirrors the add_active_monitor_change_handler closure: resolve the
named workspace; when found and not focused run send_focus_change, else
log and drop. -/
def active_monitor_change_handler (server : HyprServer) (t : WorkspaceType)
    (active : Option Workspace) : List WorkspaceUpdate × Option Workspace :=
  match get_workspace server (get_workspace_id t) active with
  | some workspace =>
    if workspace.visibility.is_focused then ([], active)
    else send_focus_change active workspace
  | none => ([], active)

/-- Mirrors the add_workspace_moved_handler closure: resolve the named
workspace; when found emit Move and, when not focused, the
send_focus_change events. -/
def workspace_moved_handler (server : HyprServer) (t : WorkspaceType)
    (active : Option Workspace) : List WorkspaceUpdate × Option Workspace :=
  match get_workspace server (get_workspace_id t) active with
  | none => ([], active)
  | some workspace =>
    if workspace.visibility.is_focused then
      ([WorkspaceUpdate.Move workspace], active)
    else
      let r := send_focus_change active workspace
      (WorkspaceUpdate.Move workspace :: r.1, r.2)

/-- Mirrors the add_workspace_destroy_handler closure: emit Remove with
the raw payload name; no query socket call is made and the cache is
untouched. -/
def workspace_destroy_handler (t : WorkspaceType) : List WorkspaceUpdate :=
  [WorkspaceUpdate.Remove (get_workspace_id t).s]

/-- Mirrors the Init snapshot built inside subscribe_workspace_change:
a fresh active query plus the full list, each entry converted through
the shared visibility rule. -/
def subscribe_init_snapshot (server : HyprServer) : List Workspace :=
  let active_id := server.active.map (fun a => a.name)
  server.workspaces.map (fun w =>
    workspace_from (visibility_from w active_id (create_is_visible server)) w)

/-- The native events the Hyprland listener registers handlers for,
plus a subscriber joining (which emits Init on the shared channel). -/
inductive HyprEvent where
  | workspace_added : WorkspaceType → HyprEvent
  | workspace_change : WorkspaceType → HyprEvent
  | window_open : HyprEvent
  | window_close : HyprEvent
  | window_moved : HyprEvent
  | active_monitor_change : WorkspaceType → HyprEvent
  | workspace_moved : WorkspaceType → HyprEvent
  | workspace_destroy : WorkspaceType → HyprEvent
  | subscribe : HyprEvent
deriving DecidableEq, Repr

/-- One adapter step: dispatch a native event against the compositor
state observed at that moment and the current cache, producing the
emitted events and the new cache. -/
def hypr_step (server : HyprServer) (e : HyprEvent) (active : Option Workspace) :
    List WorkspaceUpdate × Option Workspace :=
  match e with
  | HyprEvent.workspace_added t => workspace_added_handler server t active
  | HyprEvent.workspace_change t => workspace_change_handler server t active
  | HyprEvent.window_open => workspace_batch_handler server active
  | HyprEvent.window_close => workspace_batch_handler server active
  | HyprEvent.window_moved => workspace_batch_handler server active
  | HyprEvent.active_monitor_change t => active_monitor_change_handler server t active
  | HyprEvent.workspace_moved t => workspace_moved_handler server t active
  | HyprEvent.workspace_destroy t => (workspace_destroy_handler t, active)
  | HyprEvent.subscribe => ([WorkspaceUpdate.Init (subscribe_init_snapshot server)], active)

/-- A full adapter run: the concatenated event stream emitted while
folding the cache through a sequence of native events, each paired with
the compositor state observed when it is handled. -/
def hypr_run (active : Option Workspace) : List (HyprEvent × HyprServer) → List WorkspaceUpdate
  | [] => []
  | (e, s) :: rest =>
    let r := hypr_step s e active
    r.1 ++ hypr_run r.2 rest

/-- Atomic actions a handler body performs, used to state which parts of
a callback run inside the shared serialization mutex from line 38 of
hyprland.rs (acquire and release of that mutex, acquire and release of
the active-cache mutex, a Workspaces::get query, a channel send). -/
inductive Action where
  | acquire_serial_lock : Action
  | release_serial_lock : Action
  | lock_active : Action
  | unlock_active : Action
  | query_workspaces : Action
  | send_update : WorkspaceUpdate → Action
deriving DecidableEq, Repr

/-- Action trace of the add_workspace_change_handler closure: it takes
the shared serialization lock first, locks the cache, queries the
workspace list (inside get_workspace), performs its sends, then releases
both on scope exit. -/
def workspace_change_trace (server : HyprServer) (t : WorkspaceType)
    (active : Option Workspace) : List Action :=
  Action.acquire_serial_lock :: Action.lock_active :: Action.query_workspaces ::
    ((workspace_change_handler server t active).1.map Action.send_update) ++
    [Action.unlock_active, Action.release_serial_lock]

/-- Action trace of the workspace_batch_event macro body (window open,
window close, window moved): it never touches the shared serialization
lock; it queries the list, then per workspace locks the cache, sends one
Update and unlocks. -/
def workspace_batch_trace (server : HyprServer) (active : Option Workspace) : List Action :=
  Action.query_workspaces ::
    (server.workspaces.map (fun ws =>
      let focused :=
        match active with
        | none => Visibility.Visible false
        | some w => Visibility.Visible (decide (w.id = WorkspaceId.mk (toString ws.id)))
      [Action.lock_active,
       Action.send_update (WorkspaceUpdate.Update (workspace_from focused ws)),
       Action.unlock_active])).flatten

/-- Action trace of the add_workspace_destroy_handler closure: take the
shared lock, send one Remove built from the raw payload name, release;
no Workspaces::get query occurs. -/
def workspace_destroy_trace (t : WorkspaceType) : List Action :=
  [Action.acquire_serial_lock,
   Action.send_update (WorkspaceUpdate.Remove (get_workspace_id t).s),
   Action.release_serial_lock]

/-- A callback body is guarded when it starts by acquiring the shared
serialization lock and ends by releasing it. -/
def body_guarded (trace : List Action) : Bool :=
  decide (trace.head? = some Action.acquire_serial_lock) &&
    decide (trace.getLast? = some Action.release_serial_lock)

end Hyprland

namespace Sway

/-- A Sway IPC tree node as carried by workspace events, with the fields
the adapter reads: numeric id, optional name and output, the focused
flag and the optional visible flag. -/
structure Node where
  id : Int
  name : Option String
  output : Option String
  focused : Bool
  visible : Option Bool
deriving DecidableEq, Repr

/-- The change kinds of a Sway workspace event (swayipc WorkspaceChange). -/
inductive WorkspaceChange where
  | Init : WorkspaceChange
  | Empty : WorkspaceChange
  | Focus : WorkspaceChange
  | Move : WorkspaceChange
  | Rename : WorkspaceChange
  | Urgent : WorkspaceChange
  | Reload : WorkspaceChange
deriving DecidableEq, Repr

/-- A native Sway workspace event: a change kind plus the current node
(optional in the wire format). -/
structure WorkspaceEvent where
  change : WorkspaceChange
  current : Option Node
deriving DecidableEq, Repr

/-- Mirrors impl From (&Node) for Visibility: the focused flag wins, else
the visible flag (defaulted to false), else Hidden. -/
def visibility_from_node (node : Node) : Visibility :=
  if node.focused then Visibility.focused
  else if node.visible.getD false then Visibility.visible
  else Visibility.Hidden

/-- Mirrors impl From (Node) for Workspace: stringified id, defaulted
name and output, visibility from the node flags. -/
def workspace_from_node (node : Node) : Workspace :=
  { id := WorkspaceId.mk (toString node.id)
    name := node.name.getD ""
    monitor := node.output.getD ""
    visibility := visibility_from_node node }

/-- Mirrors impl From (WorkspaceEvent) for WorkspaceUpdate.  A Rust panic
is modelled as Except.error carrying the panic message: the todo! arms
for the Empty and Focus change kinds and the expect on a missing current
node all panic. -/
def workspace_update_from_event (event : WorkspaceEvent) : Except String WorkspaceUpdate :=
  match event.change with
  | WorkspaceChange.Init =>
    match event.current with
    | some n => Except.ok (WorkspaceUpdate.Add (workspace_from_node n))
    | none => Except.error "Missing current workspace"
  | WorkspaceChange.Empty => Except.error "not yet implemented: Re-add support for sway empty"
  | WorkspaceChange.Focus => Except.error "not yet implemented: Re-add support for focus on sway"
  | WorkspaceChange.Move =>
    match event.current with
    | some n => Except.ok (WorkspaceUpdate.Move (workspace_from_node n))
    | none => Except.error "Missing current workspace"
  | WorkspaceChange.Rename =>
    match event.current with
    | some n => Except.ok (WorkspaceUpdate.Update (workspace_from_node n))
    | none => Except.error "Missing current workspace"
  | WorkspaceChange.Urgent =>
    match event.current with
    | some n => Except.ok (WorkspaceUpdate.Update (workspace_from_node n))
    | none => Except.error "Missing current workspace"
  | WorkspaceChange.Reload =>
    match event.current with
    | some n => Except.ok (WorkspaceUpdate.Update (workspace_from_node n))
    | none => Except.error "Missing current workspace"

/-- A Sway workspace record as returned by get_workspaces, with the
fields the adapter reads. -/
structure SwayWorkspace where
  id : Int
  name : String
  output : String
  focused : Bool
  visible : Bool
deriving DecidableEq, Repr

/-- Mirrors impl From (&swayipc Workspace) for Visibility. -/
def visibility_from_sway (w : SwayWorkspace) : Visibility :=
  if w.focused then Visibility.focused
  else if w.visible then Visibility.visible
  else Visibility.Hidden

/-- Mirrors impl From (swayipc Workspace) for Workspace. -/
def workspace_from_sway (w : SwayWorkspace) : Workspace :=
  { id := WorkspaceId.mk (toString w.id)
    name := w.name
    monitor := w.output
    visibility := visibility_from_sway w }

/-- Mirrors the Init snapshot built inside the Sway
subscribe_workspace_change: translate every record of a fresh
get_workspaces query. -/
def subscribe_init_snapshot (workspaces : List SwayWorkspace) : List Workspace :=
  workspaces.map workspace_from_sway

end Sway

/-- A tokio broadcast channel modelled at the granularity the claims
need: one pending-message queue per subscriber; send appends to every
queue, subscribe adds a fresh empty queue. -/
structure Broadcast where
  queues : List (List WorkspaceUpdate)
deriving DecidableEq, Repr

/-- workspace_tx.subscribe(): a new receiver with an empty queue. -/
def Broadcast.subscribe (b : Broadcast) : Broadcast :=
  Broadcast.mk (b.queues ++ [[]])

/-- tx.send(u): every current subscriber queue receives u. -/
def Broadcast.send_all (b : Broadcast) (u : WorkspaceUpdate) : Broadcast :=
  Broadcast.mk (b.queues.map (fun q => q ++ [u]))

/-- Mirrors the Hyprland EventClient::subscribe_workspace_change body:
first subscribe a new receiver, then send the Init snapshot on the
shared sender, so it lands in every queue including the new one. -/
def hypr_subscribe_workspace_change (server : Hyprland.HyprServer) (b : Broadcast) : Broadcast :=
  (b.subscribe).send_all (WorkspaceUpdate.Init (Hyprland.subscribe_init_snapshot server))

/-- Mirrors the Sway subscribe_workspace_change body: identical shape,
with the snapshot translated from a get_workspaces query. -/
def sway_subscribe_workspace_change (workspaces : List Sway.SwayWorkspace) (b : Broadcast) : Broadcast :=
  (b.subscribe).send_all (WorkspaceUpdate.Init (Sway.subscribe_init_snapshot workspaces))

/-!
The folding construction of claim C1: a workspace-id-to-visibility map
built from an update stream.  Init replaces the map, Add / Update / Move
set that workspace entry, Focus sets the new workspace to Focused and
demotes the old one, Remove drops the named entry.
-/

/-- The fold state: an association list from workspace id to visibility
(set_vis keeps keys unique by filtering the key being written). -/
abbrev VisMap := List (WorkspaceId × Visibility)

/-- Write one entry of the map, dropping any previous entry for the key. -/
def set_vis (m : VisMap) (id : WorkspaceId) (v : Visibility) : VisMap :=
  (id, v) :: m.filter (fun p => !(decide (p.1 = id)))

/-- Apply one update to the map, following the folding rule stated in the
spec: Init replaces the map wholesale; Add, Update and Move set that
workspace entry to its carried visibility; Focus sets the new workspace
to Focused and demotes the old one (when distinct) to Visible(true);
Remove drops the named entry. -/
def apply_update (m : VisMap) : WorkspaceUpdate → VisMap
  | WorkspaceUpdate.Init ws =>
    ws.foldl (fun acc w => set_vis acc w.id w.visibility) []
  | WorkspaceUpdate.Add w => set_vis m w.id w.visibility
  | WorkspaceUpdate.Update w => set_vis m w.id w.visibility
  | WorkspaceUpdate.Move w => set_vis m w.id w.visibility
  | WorkspaceUpdate.Focus old new =>
    let m1 := set_vis m new.id Visibility.Focused
    match old with
    | some o => if o.id = new.id then m1 else set_vis m1 o.id (Visibility.Visible true)
    | none => m1
  | WorkspaceUpdate.Remove name =>
    m.filter (fun p => !(decide (p.1 = WorkspaceId.mk name)))

/-- Fold a whole update stream into a visibility map, starting empty. -/
def fold_updates (updates : List WorkspaceUpdate) : VisMap :=
  updates.foldl apply_update []

/-- Two distinct workspaces are both recorded as Focused. -/
def two_focused (m : VisMap) : Prop :=
  ∃ p ∈ m, ∃ q ∈ m, p.1 ≠ q.1 ∧ p.2 = Visibility.Focused ∧ q.2 = Visibility.Focused

instance (m : VisMap) : Decidable (two_focused m) := by
  unfold two_focused
  infer_instance

namespace Hyprland

/-- One observed compositor snapshot agrees with the adapter cache: the
fresh active query reports the cached name, and any listed workspace
bearing the cached active name has the cached id.  (The adapter issues
independent queries whose answers it assumes agree with its cache.) -/
def consistent_snapshot (server : HyprServer) (active : Option Workspace) : Bool :=
  decide (server.active.map (fun a => a.name) = active.map (fun a => a.name)) &&
  server.workspaces.all (fun w =>
    decide (some w.name = active.map (fun a => a.name) →
      some (WorkspaceId.mk (toString w.id)) = active.map (fun a => a.id)))

/-- Every snapshot observed along a run is consistent with the cache the
adapter holds at that moment. -/
def consistent_run (active : Option Workspace) : List (HyprEvent × HyprServer) → Bool
  | [] => true
  | (e, s) :: rest =>
    consistent_snapshot s active && consistent_run (hypr_step s e active).2 rest

/-- Inductive invariant tying the fold map to the adapter cache: every
entry recorded as Focused carries the cached active workspace id. -/
def focused_matches (active : Option Workspace) (m : VisMap) : Prop :=
  ∀ p ∈ m, p.2 = Visibility.Focused → active.map (fun a => a.id) = some p.1

/-- The batch Update stream claim C3 asserts, written from the words of
the spec (the shared visibility rule of section 4.1 applied to every
workspace of a fresh full-list query): Focused on a cached-name match,
else Visible(true) on a monitor active slot, else Hidden.  This is the
claim-side definition to compare against workspace_batch_handler. -/
def claimed_batch_updates (server : HyprServer) (active : Option Workspace) :
    List WorkspaceUpdate :=
  server.workspaces.map (fun ws =>
    WorkspaceUpdate.Update (workspace_from
      (visibility_from ws (active.map (fun a => a.name)) (create_is_visible server)) ws))

/-- True of an emitted batch event that is an Update whose visibility is
Visible(b), with b set exactly when the cached active workspace id
equals the updated workspace id. -/
def batch_update_matches_cache (active : Option Workspace) : WorkspaceUpdate → Bool
  | WorkspaceUpdate.Update w =>
    decide (w.visibility = Visibility.Visible
      (match active with
       | none => false
       | some a => decide (a.id = w.id)))
  | _ => false

/-- True of every update except a Focus whose old field is None. -/
def focus_old_known : WorkspaceUpdate → Bool
  | WorkspaceUpdate.Focus none _ => false
  | _ => true

end Hyprland

/-! Helper lemmas. -/

theorem is_focused_iff (v : Visibility) : v.is_focused = true ↔ v = Visibility.Focused := by
  cases v <;> simp [Visibility.is_focused]

theorem mem_set_vis {p : WorkspaceId × Visibility} {m : VisMap} {id : WorkspaceId}
    {v : Visibility} : p ∈ set_vis m id v ↔ p = (id, v) ∨ (p ∈ m ∧ p.1 ≠ id) := by
  simp [set_vis, List.mem_filter]

namespace Hyprland

theorem visibility_from_focused_iff {hw : HWorkspace} {an : Option String}
    {f : HWorkspace → Bool} :
    visibility_from hw an f = Visibility.Focused ↔ some hw.name = an := by
  unfold visibility_from Visibility.focused Visibility.visible
  split
  · simp [*]
  · split <;> simp [*]

theorem get_workspace_some {server : HyprServer} {id : WorkspaceId}
    {active : Option Workspace} {w : Workspace}
    (h : get_workspace server id active = some w) :
    ∃ hw ∈ server.workspaces,
      w = workspace_from
        (visibility_from hw (active.map (fun a => a.name)) (create_is_visible server)) hw ∧
      WorkspaceId.mk (toString hw.id) = id := by
  unfold get_workspace at h
  obtain ⟨hw, hmem, hf⟩ := List.exists_of_findSome?_eq_some h
  by_cases hc : WorkspaceId.mk (toString hw.id) = id
  · rw [if_pos hc] at hf
    exact ⟨hw, hmem, (Option.some_inj.mp hf).symm, hc⟩
  · rw [if_neg hc] at hf
    exact absurd hf (by simp)

theorem get_workspace_focused_iff {server : HyprServer} {id : WorkspaceId}
    {active : Option Workspace} {w : Workspace}
    (h : get_workspace server id active = some w) :
    (w.visibility = Visibility.Focused ↔ some w.name = active.map (fun a => a.name)) := by
  obtain ⟨hw, hmem, hwe, hid⟩ := get_workspace_some h
  subst hwe
  simpa [workspace_from] using visibility_from_focused_iff

theorem consistent_snapshot_spec {server : HyprServer} {active : Option Workspace}
    (h : consistent_snapshot server active = true) :
    server.active.map (fun a => a.name) = active.map (fun a => a.name) ∧
    ∀ w ∈ server.workspaces, some w.name = active.map (fun a => a.name) →
      some (WorkspaceId.mk (toString w.id)) = active.map (fun a => a.id) := by
  simp only [consistent_snapshot, Bool.and_eq_true, List.all_eq_true,
    decide_eq_true_eq] at h
  exact h

theorem get_workspace_focused_id {server : HyprServer} {id : WorkspaceId}
    {active : Option Workspace} {w : Workspace}
    (hcons : consistent_snapshot server active = true)
    (h : get_workspace server id active = some w)
    (hf : w.visibility = Visibility.Focused) :
    active.map (fun a => a.id) = some w.id := by
  obtain ⟨hw, hmem, hwe, hid⟩ := get_workspace_some h
  obtain ⟨-, hcons2⟩ := consistent_snapshot_spec hcons
  subst hwe
  simp only [workspace_from] at hf ⊢
  rw [visibility_from_focused_iff] at hf
  exact (hcons2 hw hmem hf).symm

end Hyprland

/-! Claim theorems. -/

/-- Claim C8: a native workspace-destroyed event carrying name "3" emits
exactly the single event Remove "3", built straight from the payload
name (as get_workspace_id extracts it); the handler performs no
workspace-list resolution query, as its action trace shows. -/
theorem C8_destroy_emits_remove_only :
    (∀ t : Hyprland.WorkspaceType,
      Hyprland.workspace_destroy_handler t =
        [WorkspaceUpdate.Remove (Hyprland.get_workspace_id t).s]) ∧
    Hyprland.workspace_destroy_handler (Hyprland.WorkspaceType.Regular "3") =
      [WorkspaceUpdate.Remove "3"] ∧
    (Hyprland.workspace_destroy_trace (Hyprland.WorkspaceType.Regular "3")).all
      (fun a => decide (a ≠ Hyprland.Action.query_workspaces)) = true :=
  ⟨fun _ => rfl, rfl, rfl⟩

/-- Claim C9: both adapters send the Init snapshot of
subscribe_workspace_change on the shared broadcast sender after
registering the new receiver, so it is appended to the queue of every
pre-existing subscriber as well as delivered (as the sole element) to
the fresh receiver; hence each later subscription deposits one more Init
into the queue of every earlier subscriber. -/
theorem C9_init_broadcast_to_all (b : Broadcast) (server : Hyprland.HyprServer)
    (sways : List Sway.SwayWorkspace) :
    (hypr_subscribe_workspace_change server b).queues =
      b.queues.map
        (fun q => q ++ [WorkspaceUpdate.Init (Hyprland.subscribe_init_snapshot server)]) ++
      [[WorkspaceUpdate.Init (Hyprland.subscribe_init_snapshot server)]] ∧
    (sway_subscribe_workspace_change sways b).queues =
      b.queues.map
        (fun q => q ++ [WorkspaceUpdate.Init (Sway.subscribe_init_snapshot sways)]) ++
      [[WorkspaceUpdate.Init (Sway.subscribe_init_snapshot sways)]] := by
  constructor <;>
    simp [hypr_subscribe_workspace_change, sway_subscribe_workspace_change,
      Broadcast.subscribe, Broadcast.send_all]

/-- Claim C7: the Sway translation maps change kind Init to Add(current),
Move to Move(current), and each of the remaining kinds other than Empty
and Focus (namely Rename, Urgent and Reload) to Update(current), where
current is the converted current node. -/
theorem C7_sway_translation_table (n : Sway.Node) :
    Sway.workspace_update_from_event
        (Sway.WorkspaceEvent.mk Sway.WorkspaceChange.Init (some n)) =
      Except.ok (WorkspaceUpdate.Add (Sway.workspace_from_node n)) ∧
    Sway.workspace_update_from_event
        (Sway.WorkspaceEvent.mk Sway.WorkspaceChange.Move (some n)) =
      Except.ok (WorkspaceUpdate.Move (Sway.workspace_from_node n)) ∧
    Sway.workspace_update_from_event
        (Sway.WorkspaceEvent.mk Sway.WorkspaceChange.Rename (some n)) =
      Except.ok (WorkspaceUpdate.Update (Sway.workspace_from_node n)) ∧
    Sway.workspace_update_from_event
        (Sway.WorkspaceEvent.mk Sway.WorkspaceChange.Urgent (some n)) =
      Except.ok (WorkspaceUpdate.Update (Sway.workspace_from_node n)) ∧
    Sway.workspace_update_from_event
        (Sway.WorkspaceEvent.mk Sway.WorkspaceChange.Reload (some n)) =
      Except.ok (WorkspaceUpdate.Update (Sway.workspace_from_node n)) :=
  ⟨rfl, rfl, rfl, rfl, rfl⟩

/-- Claim C4 is violated by the code: the untranslated change kinds Empty
and Focus do not fall through to a safe default; the translation hits a
todo! and panics (modelled as Except.error carrying the panic message),
crashing the listener task. -/
theorem C4_untranslated_kinds_panic :
    Sway.workspace_update_from_event
        (Sway.WorkspaceEvent.mk Sway.WorkspaceChange.Empty
          (some (Sway.Node.mk 1 (some "1") (some "out") false (some false)))) =
      Except.error "not yet implemented: Re-add support for sway empty" ∧
    Sway.workspace_update_from_event
        (Sway.WorkspaceEvent.mk Sway.WorkspaceChange.Focus
          (some (Sway.Node.mk 1 (some "1") (some "out") false (some false)))) =
      Except.error "not yet implemented: Re-add support for focus on sway" :=
  ⟨rfl, rfl⟩

/-- Claim C2: with workspace "1" cached as active, a workspace-changed
event naming "2" whose resolution succeeds with a workspace not bearing
the cached active name emits exactly Update then Focus with old set to
the cached workspace, and the cache ends holding the resolved
workspace. -/
theorem C2_change_emits_update_then_focus
    (server : Hyprland.HyprServer) (w1 w2 : Workspace)
    (_hname : w1.name = "1")
    (hres : Hyprland.get_workspace server (WorkspaceId.mk "2") (some w1) = some w2)
    (hdiff : w2.name ≠ w1.name) :
    Hyprland.workspace_change_handler server (Hyprland.WorkspaceType.Regular "2") (some w1) =
      ([WorkspaceUpdate.Update w2, WorkspaceUpdate.Focus (some w1) w2], some w2) := by
  have hnf : w2.visibility.is_focused = false := by
    rw [Bool.eq_false_iff]
    intro hf
    have hn := (Hyprland.get_workspace_focused_iff hres).mp ((is_focused_iff _).mp hf)
    simp only [Option.map_some', Option.some_inj] at hn
    exact hdiff hn
  unfold Hyprland.workspace_change_handler
  rw [show Hyprland.get_workspace_id (Hyprland.WorkspaceType.Regular "2") =
      WorkspaceId.mk "2" from rfl, hres]
  simp [hnf, Hyprland.send_focus_change]

/-- Witness for claim C2 at a concrete compositor state: two workspaces
"1" and "2", cache holding "1", event naming "2". -/
theorem C2_witness :
    (Workspace.mk (WorkspaceId.mk "1") "1" "M" Visibility.Focused).name = "1" ∧
    Hyprland.get_workspace
        (Hyprland.HyprServer.mk
          [Hyprland.HWorkspace.mk 1 "1" "M", Hyprland.HWorkspace.mk 2 "2" "M"] [] none)
        (WorkspaceId.mk "2")
        (some (Workspace.mk (WorkspaceId.mk "1") "1" "M" Visibility.Focused)) =
      some (Workspace.mk (WorkspaceId.mk "2") "2" "M" Visibility.Hidden) ∧
    (Workspace.mk (WorkspaceId.mk "2") "2" "M" Visibility.Hidden).name ≠
      (Workspace.mk (WorkspaceId.mk "1") "1" "M" Visibility.Focused).name ∧
    Hyprland.workspace_change_handler
        (Hyprland.HyprServer.mk
          [Hyprland.HWorkspace.mk 1 "1" "M", Hyprland.HWorkspace.mk 2 "2" "M"] [] none)
        (Hyprland.WorkspaceType.Regular "2")
        (some (Workspace.mk (WorkspaceId.mk "1") "1" "M" Visibility.Focused)) =
      ([WorkspaceUpdate.Update (Workspace.mk (WorkspaceId.mk "2") "2" "M" Visibility.Hidden),
        WorkspaceUpdate.Focus
          (some (Workspace.mk (WorkspaceId.mk "1") "1" "M" Visibility.Focused))
          (Workspace.mk (WorkspaceId.mk "2") "2" "M" Visibility.Hidden)],
       some (Workspace.mk (WorkspaceId.mk "2") "2" "M" Visibility.Hidden)) :=
  ⟨rfl, by decide, by decide,
    C2_change_emits_update_then_focus _ _ _ rfl (by decide) (by decide)⟩

/-- Claim C6: a workspace-changed event whose resolution returns a
workspace bearing the cached active name emits exactly one Update and no
Focus, and leaves the cache unchanged. -/
theorem C6_change_to_already_focused
    (server : Hyprland.HyprServer) (t : Hyprland.WorkspaceType) (w1 w : Workspace)
    (hres : Hyprland.get_workspace server (Hyprland.get_workspace_id t) (some w1) = some w)
    (hname : w.name = w1.name) :
    Hyprland.workspace_change_handler server t (some w1) =
      ([WorkspaceUpdate.Update w], some w1) := by
  have hf : w.visibility.is_focused = true :=
    (is_focused_iff _).mpr ((Hyprland.get_workspace_focused_iff hres).mpr (by simp [hname]))
  unfold Hyprland.workspace_change_handler
  rw [hres]
  simp [hf]

/-- Witness for claim C6 at a concrete compositor state: the cached
workspace "1" is targeted by the event, resolves as Focused, and only
Update is emitted. -/
theorem C6_witness :
    Hyprland.get_workspace
        (Hyprland.HyprServer.mk [Hyprland.HWorkspace.mk 1 "1" "M"] [] none)
        (Hyprland.get_workspace_id (Hyprland.WorkspaceType.Regular "1"))
        (some (Workspace.mk (WorkspaceId.mk "1") "1" "M" Visibility.Focused)) =
      some (Workspace.mk (WorkspaceId.mk "1") "1" "M" Visibility.Focused) ∧
    (Workspace.mk (WorkspaceId.mk "1") "1" "M" Visibility.Focused).name =
      (Workspace.mk (WorkspaceId.mk "1") "1" "M" Visibility.Focused).name ∧
    Hyprland.workspace_change_handler
        (Hyprland.HyprServer.mk [Hyprland.HWorkspace.mk 1 "1" "M"] [] none)
        (Hyprland.WorkspaceType.Regular "1")
        (some (Workspace.mk (WorkspaceId.mk "1") "1" "M" Visibility.Focused)) =
      ([WorkspaceUpdate.Update
          (Workspace.mk (WorkspaceId.mk "1") "1" "M" Visibility.Focused)],
       some (Workspace.mk (WorkspaceId.mk "1") "1" "M" Visibility.Focused)) :=
  ⟨by decide, rfl, C6_change_to_already_focused _ _ _ _ (by decide) rfl⟩

/-- Claim C3 is false at this input: with workspace "1" cached active and
listed by the compositor, the shared rule of section 4.1 would mark it
Focused, but the batch handler emits Visible(true) (it compares ids and
wraps the result in Visible, never producing Focused or Hidden). -/
theorem C3_counterexample :
    (Hyprland.workspace_batch_handler
        (Hyprland.HyprServer.mk [Hyprland.HWorkspace.mk 1 "1" "M"] [] none)
        (some (Workspace.mk (WorkspaceId.mk "1") "1" "M" Visibility.Focused))).1 ≠
      Hyprland.claimed_batch_updates
        (Hyprland.HyprServer.mk [Hyprland.HWorkspace.mk 1 "1" "M"] [] none)
        (some (Workspace.mk (WorkspaceId.mk "1") "1" "M" Visibility.Focused)) := by
  decide

/-- Claim C3 as amended: on each window-opened, window-closed or
window-moved event the adapter re-queries the full list and emits
exactly one Update per workspace, but the visibility it derives is not
the shared rule: every emitted event is an Update whose visibility is
Visible(b), with b true exactly when the cached active workspace id
equals the emitted workspace id (false throughout when no cache); the
cache itself is not written. -/
theorem C3_amended_batch_visibility
    (server : Hyprland.HyprServer) (active : Option Workspace) :
    (Hyprland.workspace_batch_handler server active).1.length =
      server.workspaces.length ∧
    (Hyprland.workspace_batch_handler server active).1.all
      (Hyprland.batch_update_matches_cache active) = true ∧
    (Hyprland.workspace_batch_handler server active).2 = active := by
  refine ⟨by simp [Hyprland.workspace_batch_handler], ?_, rfl⟩
  simp only [Hyprland.workspace_batch_handler, List.all_eq_true, List.mem_map]
  rintro u ⟨ws, hmem, rfl⟩
  cases active <;>
    simp [Hyprland.batch_update_matches_cache, Hyprland.workspace_from]

/-- Claim C5 is violated by the code: the action trace of the window
open, close and moved batch callbacks contains channel sends yet never
acquires the shared serialization lock (its body is not guarded), while
the workspace-change callback is guarded start to end. -/
theorem C5_batch_callbacks_unserialized :
    Hyprland.body_guarded
        (Hyprland.workspace_batch_trace
          (Hyprland.HyprServer.mk [Hyprland.HWorkspace.mk 1 "1" "M"] [] none)
          (some (Workspace.mk (WorkspaceId.mk "1") "1" "M" Visibility.Focused))) = false ∧
    (Hyprland.workspace_batch_trace
        (Hyprland.HyprServer.mk [Hyprland.HWorkspace.mk 1 "1" "M"] [] none)
        (some (Workspace.mk (WorkspaceId.mk "1") "1" "M" Visibility.Focused))).all
      (fun a => decide (a ≠ Hyprland.Action.acquire_serial_lock)) = true ∧
    (Hyprland.workspace_batch_trace
        (Hyprland.HyprServer.mk [Hyprland.HWorkspace.mk 1 "1" "M"] [] none)
        (some (Workspace.mk (WorkspaceId.mk "1") "1" "M" Visibility.Focused))).any
      (fun a => match a with
        | Hyprland.Action.send_update _ => true
        | _ => false) = true ∧
    Hyprland.body_guarded
        (Hyprland.workspace_change_trace
          (Hyprland.HyprServer.mk [Hyprland.HWorkspace.mk 1 "1" "M"] [] none)
          (Hyprland.WorkspaceType.Regular "1")
          (some (Workspace.mk (WorkspaceId.mk "1") "1" "M" Visibility.Focused))) = true := by
  refine ⟨by decide, by decide, by decide, by decide⟩

theorem send_focus_change_old_known (active : Option Workspace) (w : Workspace) :
    ((Hyprland.send_focus_change active w).1).all Hyprland.focus_old_known = true := by
  cases active <;> rfl

theorem hypr_step_old_known (server : Hyprland.HyprServer) (e : Hyprland.HyprEvent)
    (active : Option Workspace) :
    ((Hyprland.hypr_step server e active).1).all Hyprland.focus_old_known = true := by
  cases e with
  | workspace_added t =>
    simp only [Hyprland.hypr_step]
    unfold Hyprland.workspace_added_handler
    cases h : Hyprland.get_workspace server (Hyprland.get_workspace_id t) active <;>
      simp [Hyprland.focus_old_known]
  | workspace_change t =>
    simp only [Hyprland.hypr_step]
    unfold Hyprland.workspace_change_handler
    cases h : Hyprland.get_workspace server (Hyprland.get_workspace_id t) active with
    | none => simp
    | some w =>
      by_cases hf : w.visibility.is_focused = true
      · simp [hf, Hyprland.focus_old_known]
      · simp only [Bool.not_eq_true] at hf
        simp [hf, Hyprland.focus_old_known, send_focus_change_old_known]
  | window_open =>
    simp only [Hyprland.hypr_step, Hyprland.workspace_batch_handler, List.all_eq_true,
      List.mem_map]
    rintro u ⟨ws, _, rfl⟩
    rfl
  | window_close =>
    simp only [Hyprland.hypr_step, Hyprland.workspace_batch_handler, List.all_eq_true,
      List.mem_map]
    rintro u ⟨ws, _, rfl⟩
    rfl
  | window_moved =>
    simp only [Hyprland.hypr_step, Hyprland.workspace_batch_handler, List.all_eq_true,
      List.mem_map]
    rintro u ⟨ws, _, rfl⟩
    rfl
  | active_monitor_change t =>
    simp only [Hyprland.hypr_step]
    unfold Hyprland.active_monitor_change_handler
    cases h : Hyprland.get_workspace server (Hyprland.get_workspace_id t) active with
    | none => simp
    | some w =>
      by_cases hf : w.visibility.is_focused = true
      · simp [hf]
      · simp only [Bool.not_eq_true] at hf
        simp [hf, send_focus_change_old_known]
  | workspace_moved t =>
    simp only [Hyprland.hypr_step]
    unfold Hyprland.workspace_moved_handler
    cases h : Hyprland.get_workspace server (Hyprland.get_workspace_id t) active with
    | none => simp
    | some w =>
      by_cases hf : w.visibility.is_focused = true
      · simp [hf, Hyprland.focus_old_known]
      · simp only [Bool.not_eq_true] at hf
        simp [hf, Hyprland.focus_old_known, send_focus_change_old_known]
  | workspace_destroy t => rfl
  | subscribe => rfl

theorem hypr_run_old_known (steps : List (Hyprland.HyprEvent × Hyprland.HyprServer)) :
    ∀ active : Option Workspace,
      (Hyprland.hypr_run active steps).all Hyprland.focus_old_known = true := by
  induction steps with
  | nil => intro active; rfl
  | cons p rest ih =>
    intro active
    obtain ⟨e, s⟩ := p
    simp only [Hyprland.hypr_run, List.all_append, Bool.and_eq_true]
    exact ⟨hypr_step_old_known s e active, ih _⟩

/-- Claim C10: send_focus_change emits a Focus exactly when a previous
active workspace is cached (with that workspace as old), installs the
new workspace into the cache in both cases, and consequently no run of
the Hyprland adapter ever emits a Focus whose old field is None. -/
theorem C10_no_focus_without_old :
    (∀ w : Workspace, Hyprland.send_focus_change none w = ([], some w)) ∧
    (∀ old w : Workspace, Hyprland.send_focus_change (some old) w =
      ([WorkspaceUpdate.Focus (some old) w], some w)) ∧
    (∀ (active : Option Workspace) (steps : List (Hyprland.HyprEvent × Hyprland.HyprServer)),
      (Hyprland.hypr_run active steps).all Hyprland.focus_old_known = true) :=
  ⟨fun _ => rfl, fun _ _ => rfl, fun active steps => hypr_run_old_known steps active⟩

namespace Hyprland

theorem not_two_focused_of_matches {active : Option Workspace} {m : VisMap}
    (h : focused_matches active m) : ¬ two_focused m := by
  rintro ⟨p, hp, q, hq, hne, hpf, hqf⟩
  have h1 := h p hp hpf
  have h2 := h q hq hqf
  rw [h1] at h2
  exact hne (Option.some_inj.mp h2)

theorem focused_matches_nil (active : Option Workspace) : focused_matches active [] := by
  intro p hp
  exact absurd hp (List.not_mem_nil p)

theorem focused_matches_set_vis_pair {active : Option Workspace} {m : VisMap}
    (id : WorkspaceId) (v : Visibility)
    (hinv : focused_matches active m)
    (hfoc : v = Visibility.Focused → active.map (fun a => a.id) = some id) :
    focused_matches active (set_vis m id v) := by
  intro p hp hpf
  rcases mem_set_vis.mp hp with hpe | ⟨hpm, _⟩
  · subst hpe
    exact hfoc hpf
  · exact hinv p hpm hpf

theorem focused_matches_send_focus_change {active : Option Workspace} {m : VisMap}
    (w : Workspace)
    (hinv : focused_matches active m) :
    focused_matches (send_focus_change active w).2
      (List.foldl apply_update m (send_focus_change active w).1) := by
  cases active with
  | none =>
    intro p hp hpf
    have := hinv p hp hpf
    simp at this
  | some old =>
    simp only [send_focus_change, List.foldl_cons, List.foldl_nil]
    intro p hp hpf
    simp only [Option.map_some', Option.some_inj]
    simp only [apply_update] at hp
    by_cases hoe : old.id = w.id
    · rw [if_pos hoe] at hp
      rcases mem_set_vis.mp hp with hpe | ⟨hpm, hpne⟩
      · subst hpe
        rfl
      · have heq := hinv p hpm hpf
        simp only [Option.map_some', Option.some_inj] at heq
        exact absurd (heq ▸ hoe) hpne
    · rw [if_neg hoe] at hp
      rcases mem_set_vis.mp hp with hpe | ⟨hp1, hpne1⟩
      · subst hpe
        simp at hpf
      · rcases mem_set_vis.mp hp1 with hpe | ⟨hpm, hpne2⟩
        · subst hpe
          rfl
        · have heq := hinv p hpm hpf
          simp only [Option.map_some', Option.some_inj] at heq
          exact absurd heq.symm hpne1

theorem focused_matches_nonfocused_updates {active : Option Workspace} :
    ∀ (l : List Workspace) (m : VisMap),
      focused_matches active m →
      (∀ w ∈ l, w.visibility ≠ Visibility.Focused) →
      focused_matches active (List.foldl apply_update m (l.map WorkspaceUpdate.Update))
  | [], _, hinv, _ => hinv
  | w :: ws, m, hinv, h => by
    simp only [List.map_cons, List.foldl_cons]
    exact focused_matches_nonfocused_updates ws _
      (focused_matches_set_vis_pair w.id w.visibility hinv
        (fun hc => absurd hc (h w (by simp))))
      (fun x hx => h x (by simp [hx]))

theorem focused_matches_init_fold {active : Option Workspace} :
    ∀ (l : List Workspace) (m : VisMap),
      focused_matches active m →
      (∀ w ∈ l, w.visibility = Visibility.Focused → active.map (fun a => a.id) = some w.id) →
      focused_matches active (List.foldl (fun acc w => set_vis acc w.id w.visibility) m l)
  | [], _, hinv, _ => hinv
  | w :: ws, m, hinv, h => by
    simp only [List.foldl_cons]
    exact focused_matches_init_fold ws _
      (focused_matches_set_vis_pair w.id w.visibility hinv (h w (by simp)))
      (fun x hx => h x (by simp [hx]))

theorem snapshot_focused_id {server : HyprServer} {active : Option Workspace}
    (hcons : consistent_snapshot server active = true) :
    ∀ w ∈ subscribe_init_snapshot server,
      w.visibility = Visibility.Focused → active.map (fun a => a.id) = some w.id := by
  obtain ⟨hc1, hc2⟩ := consistent_snapshot_spec hcons
  intro w hw hf
  simp only [subscribe_init_snapshot, List.mem_map] at hw
  obtain ⟨hw0, hmem, rfl⟩ := hw
  simp only [workspace_from] at hf ⊢
  rw [visibility_from_focused_iff] at hf
  rw [hc1] at hf
  exact (hc2 hw0 hmem hf).symm

theorem focused_matches_batch {server : HyprServer} {active : Option Workspace} {m : VisMap}
    (hinv : focused_matches active m) :
    focused_matches active
      (List.foldl apply_update m (workspace_batch_handler server active).1) := by
  have hrw : (workspace_batch_handler server active).1 =
      (server.workspaces.map (fun ws =>
        workspace_from
          (match active with
           | none => Visibility.Visible false
           | some w => Visibility.Visible (decide (w.id = WorkspaceId.mk (toString ws.id))))
          ws)).map WorkspaceUpdate.Update := by
    simp [workspace_batch_handler, List.map_map]
  rw [hrw]
  apply focused_matches_nonfocused_updates _ _ hinv
  intro w hw
  simp only [List.mem_map] at hw
  obtain ⟨ws, hmem, rfl⟩ := hw
  cases active <;> simp [workspace_from]

theorem hypr_step_preserves {server : HyprServer} {active : Option Workspace} {m : VisMap}
    (e : HyprEvent)
    (hcons : consistent_snapshot server active = true)
    (hinv : focused_matches active m) :
    focused_matches (hypr_step server e active).2
      (List.foldl apply_update m (hypr_step server e active).1) := by
  cases e with
  | workspace_added t =>
    simp only [hypr_step]
    unfold workspace_added_handler
    cases h : get_workspace server (get_workspace_id t) active with
    | none => simpa using hinv
    | some w =>
      simp only [List.foldl_cons, List.foldl_nil]
      exact focused_matches_set_vis_pair w.id w.visibility hinv
        (fun hf => get_workspace_focused_id hcons h hf)
  | workspace_change t =>
    simp only [hypr_step]
    unfold workspace_change_handler
    cases h : get_workspace server (get_workspace_id t) active with
    | none => simpa using hinv
    | some w =>
      by_cases hf : w.visibility.is_focused = true
      · simp only [hf, if_true, List.foldl_cons, List.foldl_nil]
        exact focused_matches_set_vis_pair w.id w.visibility hinv
          (fun hc => get_workspace_focused_id hcons h hc)
      · simp only [hf, Bool.false_eq_true, if_false, List.foldl_cons]
        exact focused_matches_send_focus_change w
          (focused_matches_set_vis_pair w.id w.visibility hinv
            (fun hc => absurd ((is_focused_iff _).mpr hc) (by simp [hf])))
  | window_open => exact focused_matches_batch hinv
  | window_close => exact focused_matches_batch hinv
  | window_moved => exact focused_matches_batch hinv
  | active_monitor_change t =>
    simp only [hypr_step]
    unfold active_monitor_change_handler
    cases h : get_workspace server (get_workspace_id t) active with
    | none => simpa using hinv
    | some w =>
      by_cases hf : w.visibility.is_focused = true
      · simpa only [hf, if_true, List.foldl_nil] using hinv
      · simp only [hf, Bool.false_eq_true, if_false]
        exact focused_matches_send_focus_change w hinv
  | workspace_moved t =>
    simp only [hypr_step]
    unfold workspace_moved_handler
    cases h : get_workspace server (get_workspace_id t) active with
    | none => simpa using hinv
    | some w =>
      by_cases hf : w.visibility.is_focused = true
      · simp only [hf, if_true, List.foldl_cons, List.foldl_nil]
        exact focused_matches_set_vis_pair w.id w.visibility hinv
          (fun hc => get_workspace_focused_id hcons h hc)
      · simp only [hf, Bool.false_eq_true, if_false, List.foldl_cons]
        exact focused_matches_send_focus_change w
          (focused_matches_set_vis_pair w.id w.visibility hinv
            (fun hc => absurd ((is_focused_iff _).mpr hc) (by simp [hf])))
  | workspace_destroy t =>
    simp only [hypr_step]
    unfold workspace_destroy_handler
    simp only [List.foldl_cons, List.foldl_nil]
    intro p hp hpf
    simp only [apply_update, List.mem_filter] at hp
    exact hinv p hp.1 hpf
  | subscribe =>
    simp only [hypr_step, List.foldl_cons, List.foldl_nil]
    exact focused_matches_init_fold _ []
      (focused_matches_nil active) (snapshot_focused_id hcons)

theorem hypr_run_not_two_focused :
    ∀ (steps : List (HyprEvent × HyprServer)) (active : Option Workspace) (m : VisMap),
      consistent_run active steps = true →
      focused_matches active m →
      ¬ two_focused (List.foldl apply_update m (hypr_run active steps))
  | [], _, _, _, hinv => not_two_focused_of_matches hinv
  | (e, s) :: rest, active, m, hcons, hinv => by
    simp only [consistent_run, Bool.and_eq_true] at hcons
    simp only [hypr_run, List.foldl_append]
    exact hypr_run_not_two_focused rest _ _ hcons.2 (hypr_step_preserves e hcons.1 hinv)

end Hyprland

/-- Claim C1 is false at this emitted sequence: the listener cache holds
workspace "1" (seeded Focused) while a subscription Init snapshot from a
fresh active query reports "2" focused; a following workspace-changed
event targeting "1" resolves it against the stale cache as Focused and
emits Update without any Focus, leaving both "1" and "2" Focused in the
folded map. -/
theorem C1_counterexample :
    two_focused (fold_updates (Hyprland.hypr_run
      (some (Workspace.mk (WorkspaceId.mk "1") "1" "M" Visibility.Focused))
      [(Hyprland.HyprEvent.subscribe,
        Hyprland.HyprServer.mk
          [Hyprland.HWorkspace.mk 1 "1" "M", Hyprland.HWorkspace.mk 2 "2" "M"] []
          (some (Hyprland.HWorkspace.mk 2 "2" "M"))),
       (Hyprland.HyprEvent.workspace_change (Hyprland.WorkspaceType.Regular "1"),
        Hyprland.HyprServer.mk
          [Hyprland.HWorkspace.mk 1 "1" "M", Hyprland.HWorkspace.mk 2 "2" "M"] []
          none)])) := by
  decide

/-- Claim C1 as amended: for every sequence of events the Hyprland
adapter emits along a run in which each observed compositor snapshot is
consistent with the adapter cache of that moment (the fresh active query
reports the cached name, and any listed workspace bearing the cached
name carries the cached id), folding the emitted stream into the
workspace-id-to-visibility map never yields two distinct workspaces both
Focused. -/
theorem C1_amended_single_focus
    (active : Option Workspace) (steps : List (Hyprland.HyprEvent × Hyprland.HyprServer))
    (hcons : Hyprland.consistent_run active steps = true) :
    ¬ two_focused (fold_updates (Hyprland.hypr_run active steps)) :=
  Hyprland.hypr_run_not_two_focused steps active [] hcons
    (Hyprland.focused_matches_nil active)

/-- Witness for the amended claim C1 on a concrete consistent run: a
subscription Init agreeing with the cache followed by a
workspace-changed event targeting the cached workspace. -/
theorem C1_amended_witness :
    Hyprland.consistent_run
        (some (Workspace.mk (WorkspaceId.mk "1") "1" "M" Visibility.Focused))
        [(Hyprland.HyprEvent.subscribe,
          Hyprland.HyprServer.mk
            [Hyprland.HWorkspace.mk 1 "1" "M", Hyprland.HWorkspace.mk 2 "2" "M"] []
            (some (Hyprland.HWorkspace.mk 1 "1" "M"))),
         (Hyprland.HyprEvent.workspace_change (Hyprland.WorkspaceType.Regular "1"),
          Hyprland.HyprServer.mk
            [Hyprland.HWorkspace.mk 1 "1" "M", Hyprland.HWorkspace.mk 2 "2" "M"] []
            (some (Hyprland.HWorkspace.mk 1 "1" "M")))] = true ∧
    ¬ two_focused (fold_updates (Hyprland.hypr_run
      (some (Workspace.mk (WorkspaceId.mk "1") "1" "M" Visibility.Focused))
      [(Hyprland.HyprEvent.subscribe,
        Hyprland.HyprServer.mk
          [Hyprland.HWorkspace.mk 1 "1" "M", Hyprland.HWorkspace.mk 2 "2" "M"] []
          (some (Hyprland.HWorkspace.mk 1 "1" "M"))),
       (Hyprland.HyprEvent.workspace_change (Hyprland.WorkspaceType.Regular "1"),
        Hyprland.HyprServer.mk
          [Hyprland.HWorkspace.mk 1 "1" "M", Hyprland.HWorkspace.mk 2 "2" "M"] []
          (some (Hyprland.HWorkspace.mk 1 "1" "M")))])) :=
  ⟨by decide, C1_amended_single_focus _ _ (by decide)⟩

end Ironbar
